import Mathlib

/-!
Shallow embedding of the ClooTrack support-ticket backend
(`src/apps/backend/index.ts`), covering the classification endpoint
(`POST /api/tickets/classify/`), its keyword fallback engine, the
`parseOptionalEnum` helper and the `PATCH /api/tickets/:id` handler.

JavaScript strings are modelled as Lean `String`s; the handful of string
operations the code uses (`toLowerCase`, `trim`, `split(/\s+/)`,
word-boundary regex `test`) are embedded explicitly below over `List Char`,
matching the ASCII behaviour of the JS originals (`\w` = `[A-Za-z0-9_]`,
`\s` modelled by the ASCII whitespace characters).
-/

namespace ClooTrack

/-- `Category` enum from the Prisma schema: billing, technical, account, general. -/
inductive Category
  | billing
  | technical
  | account
  | general
deriving DecidableEq, Repr

/-- `Priority` enum from the Prisma schema: low, medium, high, critical. -/
inductive Priority
  | low
  | medium
  | high
  | critical
deriving DecidableEq, Repr

/-- `Status` enum from the Prisma schema: open, in_progress, resolved, closed. -/
inductive Status
  | open
  | in_progress
  | resolved
  | closed
deriving DecidableEq, Repr

/-- `CATEGORIES = Object.values(Category)` as lower-case strings. -/
def CATEGORIES : List String := ["billing", "technical", "account", "general"]

/-- `PRIORITIES = Object.values(Priority)` as lower-case strings. -/
def PRIORITIES : List String := ["low", "medium", "high", "critical"]

/-- `STATUSES = Object.values(Status)` as lower-case strings. -/
def STATUSES : List String := ["open", "in_progress", "resolved", "closed"]

/-- Decode a string into a `Category` member (exact match on the enum literals). -/
def categoryOfString : String → Option Category
  | "billing" => some .billing
  | "technical" => some .technical
  | "account" => some .account
  | "general" => some .general
  | _ => none

/-- Decode a string into a `Priority` member (exact match on the enum literals). -/
def priorityOfString : String → Option Priority
  | "low" => some .low
  | "medium" => some .medium
  | "high" => some .high
  | "critical" => some .critical
  | _ => none

/-- Decode a string into a `Status` member (exact match on the enum literals). -/
def statusOfString : String → Option Status
  | "open" => some .open
  | "in_progress" => some .in_progress
  | "resolved" => some .resolved
  | "closed" => some .closed
  | _ => none

/-- The enum literal for a `Category`. -/
def Category.toStr : Category → String
  | .billing => "billing"
  | .technical => "technical"
  | .account => "account"
  | .general => "general"

/-- The enum literal for a `Priority`. -/
def Priority.toStr : Priority → String
  | .low => "low"
  | .medium => "medium"
  | .high => "high"
  | .critical => "critical"

/-! ## String primitives used by the handler -/

/-- ASCII whitespace, as matched by the JS `trim()` / `\s` uses in this code. -/
def isWsChar (c : Char) : Bool :=
  c = ' ' || c = '\t' || c = '\n' || c = '\r'

/-- `s.trim()`: drop leading and trailing whitespace. -/
def trimString (s : String) : String :=
  String.mk (((s.data.dropWhile isWsChar).reverse.dropWhile isWsChar).reverse)

/-- `s.toLowerCase()` on ASCII text: lower-case each character. -/
def lowerString (s : String) : String :=
  String.mk (s.data.map Char.toLower)

/-- JS `\w`: a word character is `[A-Za-z0-9_]`. -/
def isWordChar (c : Char) : Bool :=
  (c.isAlpha || c.isDigit) || c = '_'

/-- The keyword `w` matches at the head of `l` with a trailing word boundary
(`\bw\b` semantics for the right edge: the character after the keyword, if
any, is not a word character). -/
def matchesHere : List Char → List Char → Bool
  | [], [] => true
  | [], c :: _ => !isWordChar c
  | _ :: _, [] => false
  | w :: ws, c :: cs => (w = c) && matchesHere ws cs

/-- Scan the text for a whole-word occurrence of `w`; `prevIsWord` records
whether the character just before the current position is a word character
(the left `\b` boundary). -/
def containsWordAux (w : List Char) : Bool → List Char → Bool
  | _, [] => false
  | prevIsWord, c :: cs =>
    (!prevIsWord && matchesHere w (c :: cs)) || containsWordAux w (isWordChar c) cs

/-- `/\bw\b/.test(text)`: the keyword `w` occurs in `text` as a whole word. -/
def containsWord (text : String) (w : String) : Bool :=
  containsWordAux w.data false text.data

/-- `/\b(w1|w2|...)\b/.test(text)`: some keyword of the list occurs in `text`
as a whole word. -/
def matchesAny (text : String) (ws : List String) : Bool :=
  ws.any (containsWord text)

/-- Tokenizer for the LLM reply: maximal runs of non-whitespace characters,
embedding `text.split(/\s+/).filter(Boolean)`. -/
def splitWsAux : List Char → List Char → List String
  | [], acc => if acc.isEmpty then [] else [String.mk acc.reverse]
  | c :: cs, acc =>
    if isWsChar c then
      if acc.isEmpty then splitWsAux cs []
      else String.mk acc.reverse :: splitWsAux cs []
    else splitWsAux cs (c :: acc)

/-- `text.split(/\s+/).filter(Boolean)`. -/
def tokenize (text : String) : List String :=
  splitWsAux text.data []

/-! ## Fallback engine (index.ts lines 96-114) -/

/-- Billing keyword pattern `\b(bill|payment|charge|invoice|subscription|refund)\b`. -/
def billingKeywords : List String :=
  ["bill", "payment", "charge", "invoice", "subscription", "refund"]

/-- Account keyword pattern `\b(login|password|account|email|access|sign)\b`. -/
def accountKeywords : List String :=
  ["login", "password", "account", "email", "access", "sign"]

/-- Technical keyword pattern `\b(error|bug|crash|slow|broken|feature|api|integration)\b`. -/
def technicalKeywords : List String :=
  ["error", "bug", "crash", "slow", "broken", "feature", "api", "integration"]

/-- Critical keyword pattern `\b(urgent|critical|down|outage|immediately|asap)\b`. -/
def criticalKeywords : List String :=
  ["urgent", "critical", "down", "outage", "immediately", "asap"]

/-- High keyword pattern `\b(important|asap|soon|blocked)\b`. -/
def highKeywords : List String :=
  ["important", "asap", "soon", "blocked"]

/-- Low keyword pattern `\b(minor|whenever|suggestion)\b`. -/
def lowKeywords : List String :=
  ["minor", "whenever", "suggestion"]

/-- Fallback category classification: `lower = description.toLowerCase()`,
then test billing, account, technical patterns in order; default general. -/
def fallbackCategory (description : String) : Category :=
  let lower := lowerString description
  if matchesAny lower billingKeywords then .billing
  else if matchesAny lower accountKeywords then .account
  else if matchesAny lower technicalKeywords then .technical
  else .general

/-- Fallback priority classification: test critical, high, low patterns in
order on the lower-cased description; default medium. -/
def fallbackPriority (description : String) : Priority :=
  let lower := lowerString description
  if matchesAny lower criticalKeywords then .critical
  else if matchesAny lower highKeywords then .high
  else if matchesAny lower lowKeywords then .low
  else .medium

/-- The whole keyword fallback: suggested category and priority. -/
def fallbackClassify (description : String) : Category × Priority :=
  (fallbackCategory description, fallbackPriority description)

/-! ## JS request-body values -/

/-- The JavaScript values a request-body field can hold in this model:
`undefined` (field absent), `null`, booleans, integers and strings.
The handlers only ever branch on `typeof v === "string"`, compare with
`undefined`/`null`/`""` and apply `String(v)`, all captured below. -/
inductive JsValue
  | undefined
  | null
  | boolean (b : Bool)
  | number (n : Int)
  | string (s : String)
deriving DecidableEq, Repr

/-- JS `String(value)` on the modelled values. -/
def jsToString : JsValue → String
  | .undefined => "undefined"
  | .null => "null"
  | .boolean b => if b then "true" else "false"
  | .number n => toString n
  | .string s => s

/-- `parseOptionalEnum(value, allowed)` (index.ts lines 44-51):
`undefined`, `null` and `""` give `undefined`; otherwise the value is cast
to a string, lower-cased, and kept only if it is a member of `allowed`. -/
def parseOptionalEnum (value : JsValue) (allowed : List String) : Option String :=
  match value with
  | .undefined => none
  | .null => none
  | .string "" => none
  | v =>
    let s := lowerString (jsToString v)
    if allowed.contains s then some s else none

/-! ## LLM classification adapter (index.ts lines 63-94) -/

/-- Outcome of the awaited `openai.chat.completions.create` call: either the
call throws (network error, timeout, API error) or it returns a completion
whose `choices[0]?.message?.content` is the given optional string. -/
inductive LLMOutcome
  | throws
  | returns (content : Option String)
deriving DecidableEq, Repr

/-- `completion.choices[0]?.message?.content?.trim().toLowerCase() ?? ""`. -/
def llmText (content : Option String) : String :=
  match content with
  | none => ""
  | some s => lowerString (trimString s)

/-- The first-two-token parse and enum validation of the LLM reply
(index.ts lines 75-87): `some (c, p)` exactly when the reply has at least
two tokens and both decode to enum members; `none` signals fallback. -/
def parseLLMResponse (content : Option String) : Option (Category × Priority) :=
  let parts := tokenize (llmText content)
  match parts[0]? with
  | none => none
  | some rawCategory =>
    match parts[1]? with
    | none => none
    | some rawPriority =>
      match categoryOfString rawCategory, priorityOfString rawPriority with
      | some c, some p => some (c, p)
      | _, _ => none

/-- The adapter as a whole: a thrown call or an unparsable reply signals
failure (`none`); otherwise the validated pair. -/
def adapterParse : LLMOutcome → Option (Category × Priority)
  | .throws => none
  | .returns content => parseLLMResponse content

/-! ## POST /api/tickets/classify/ handler (index.ts lines 57-115) -/

/-- The classify endpoint's possible responses: a 400 error JSON or a 200
JSON with `suggested_category` and `suggested_priority`. -/
inductive ClassifyResponse
  | badRequest (error : String)
  | ok (category : Category) (priority : Priority)
deriving DecidableEq, Repr

/-- The classify handler. `llm = none` models an unset `OPENAI_API_KEY`
(the `openai` client is `null` and the adapter is never invoked);
`llm = some o` models a configured client whose single call has outcome
`o`. `description` is `req.body?.description`. -/
def classifyHandler (llm : Option LLMOutcome) (description : JsValue) :
    ClassifyResponse :=
  match description with
  | .string s =>
    if trimString s = "" then .badRequest "description is required"
    else
      match llm with
      | none => .ok (fallbackCategory s) (fallbackPriority s)
      | some o =>
        match adapterParse o with
        | some (c, p) => .ok c p
        | none => .ok (fallbackCategory s) (fallbackPriority s)
  | _ => .badRequest "description is required"

/-! ## Tickets and the PATCH /api/tickets/:id handler (index.ts lines 242-286) -/

/-- A stored ticket row (the `created_at` timestamp is not touched by the
PATCH handler and is omitted). -/
structure Ticket where
  id : String
  title : String
  description : String
  category : Category
  priority : Priority
  status : Status
deriving DecidableEq, Repr

/-- The `data` object the PATCH handler assembles: each field is present
(`some`) or absent (`none`), mirroring the keys added to `data`. -/
structure UpdateData where
  title : Option String
  description : Option String
  category : Option Category
  priority : Option Priority
  status : Option Status
deriving DecidableEq, Repr

/-- `Object.keys(data).length === 0`. -/
def UpdateData.isEmpty (d : UpdateData) : Bool :=
  d.title = none && d.description = none && d.category = none &&
    d.priority = none && d.status = none

/-- The request body of a PATCH call: the five recognized fields as JS
values (`.undefined` = key absent). -/
structure PatchBody where
  title : JsValue
  description : JsValue
  category : JsValue
  priority : JsValue
  status : JsValue
deriving DecidableEq, Repr

/-- Validation of the `title` field (index.ts lines 249-255): when present
it must be a string with non-empty trim and at most 200 characters; the
trimmed value goes into `data`. -/
def checkTitleField : JsValue → Except String (Option String)
  | .undefined => .ok none
  | .string s =>
    if trimString s = "" then .error "title must be a non-empty string"
    else if s.length > 200 then .error "title must be at most 200 characters"
    else .ok (some (trimString s))
  | _ => .error "title must be a non-empty string"

/-- Validation of the `description` field (index.ts lines 256-260): when
present it must be a string; the trimmed value goes into `data`. -/
def checkDescriptionField : JsValue → Except String (Option String)
  | .undefined => .ok none
  | .string s => .ok (some (trimString s))
  | _ => .error "description must be a string"

/-- Validation and assembly of `data` (index.ts lines 248-266): title and
description validate with early 400 returns; category/priority/status go
through `parseOptionalEnum` and are silently dropped when invalid. -/
def buildUpdateData (body : PatchBody) : Except String UpdateData :=
  match checkTitleField body.title with
  | .error e => .error e
  | .ok title =>
    match checkDescriptionField body.description with
    | .error e => .error e
    | .ok description =>
      .ok ⟨title, description,
        (parseOptionalEnum body.category CATEGORIES).bind categoryOfString,
        (parseOptionalEnum body.priority PRIORITIES).bind priorityOfString,
        (parseOptionalEnum body.status STATUSES).bind statusOfString⟩

/-- Apply an assembled `data` object to a row, as `prisma.ticket.update`
does: present fields overwrite, absent fields are untouched. -/
def applyUpdate (d : UpdateData) (t : Ticket) : Ticket :=
  { t with
    title := d.title.getD t.title
    description := d.description.getD t.description
    category := d.category.getD t.category
    priority := d.priority.getD t.priority
    status := d.status.getD t.status }

/-- The ticket table, modelled as a list of rows; `findTicket` is
`prisma.ticket.findUnique({ where: { id } })`. -/
def findTicket (store : List Ticket) (id : String) : Option Ticket :=
  store.find? (fun t => t.id = id)

/-- `prisma.ticket.update({ where: { id }, data })` applied to the table
(only the row with the given id changes). -/
def updateStore (store : List Ticket) (id : String) (d : UpdateData) :
    List Ticket :=
  store.map (fun t => if t.id = id then applyUpdate d t else t)

/-- The PATCH endpoint's possible responses (the 500 path only fires on a
database error other than "row not found" and is outside this model). -/
inductive PatchResponse
  | badRequest (error : String)
  | notFound
  | ok (t : Ticket)
deriving DecidableEq, Repr

/-- The PATCH handler: returns the HTTP response together with the table
after the call. An empty `data` performs no update and echoes the stored
row; a missing row yields 404 (Prisma error `P2025`). -/
def patchHandler (store : List Ticket) (id : String) (body : PatchBody) :
    PatchResponse × List Ticket :=
  if id = "" then (.badRequest "Ticket id required", store)
  else
    match buildUpdateData body with
    | .error e => (.badRequest e, store)
    | .ok d =>
      if d.isEmpty then
        match findTicket store id with
        | none => (.notFound, store)
        | some t => (.ok t, store)
      else
        match findTicket store id with
        | none => (.notFound, store)
        | some t => (.ok (applyUpdate d t), updateStore store id d)

/-! Helper lemmas shared by several claim theorems. -/

/-- Every `Category` value is one of the four enum members. -/
lemma category_mem_univ (c : Category) :
    c ∈ [Category.billing, Category.technical, Category.account, Category.general] := by
  cases c <;> simp

/-- Every `Priority` value is one of the four enum members. -/
lemma priority_mem_univ (p : Priority) :
    p ∈ [Priority.low, Priority.medium, Priority.high, Priority.critical] := by
  cases p <;> simp

/-- The trimmed string is empty exactly when every character of the original
is whitespace (the `!description.trim()` test of the handler). -/
lemma trimString_eq_empty_iff (s : String) :
    trimString s = "" ↔ s.data.all isWsChar := by
  unfold trimString
  constructor
  · intro h
    have hnil : ((s.data.dropWhile isWsChar).reverse.dropWhile isWsChar).reverse = [] := by
      simpa [String.ext_iff] using h
    have hnil2 : (s.data.dropWhile isWsChar).reverse.dropWhile isWsChar = [] := by
      simpa using congrArg List.reverse hnil
    have hdropAll : ∀ x ∈ (s.data.dropWhile isWsChar).reverse, isWsChar x :=
      List.dropWhile_eq_nil_iff.mp hnil2
    have hdrop : ∀ x ∈ s.data.dropWhile isWsChar, isWsChar x := by
      intro x hx
      exact hdropAll x (List.mem_reverse.mpr hx)
    rw [List.all_eq_true]
    intro x hx
    rcases List.mem_append.mp
        ((List.takeWhile_append_dropWhile (p := isWsChar) (l := s.data)) ▸ hx) with
      htake | hdropmem
    · exact List.mem_takeWhile_imp htake
    · exact hdrop x hdropmem
  · intro h
    have hdrop : s.data.dropWhile isWsChar = [] := by
      rw [List.dropWhile_eq_nil_iff]
      intro x hx
      exact List.all_eq_true.mp h x hx
    simp [hdrop, String.ext_iff]

/-- A reply with no tokens, a single token, or a token failing enum
validation parses to `none` (the "use fallback" signal). -/
lemma parseLLMResponse_eq_none_of_garbage (content : Option String)
    (hbad : tokenize (llmText content) = [] ∨
      (tokenize (llmText content)).length = 1 ∨
      (∃ rc, (tokenize (llmText content))[0]? = some rc ∧ categoryOfString rc = none) ∨
      (∃ rp, (tokenize (llmText content))[1]? = some rp ∧ priorityOfString rp = none)) :
    parseLLMResponse content = none := by
  unfold parseLLMResponse
  cases h0 : (tokenize (llmText content))[0]? with
  | none => simp [h0]
  | some rc =>
    cases h1 : (tokenize (llmText content))[1]? with
    | none => simp [h0, h1]
    | some rp =>
      rcases hbad with hnil | hlen | ⟨rc', hrc', hcat⟩ | ⟨rp', hrp', hpri⟩
      · rw [hnil] at h0
        simp at h0
      · obtain ⟨a, ha⟩ := List.length_eq_one.mp hlen
        rw [ha] at h1
        simp at h1
      · rw [h0] at hrc'
        injection hrc' with e
        subst e
        cases hp : priorityOfString rp <;> simp [h0, h1, hcat, hp]
      · rw [h1] at hrp'
        injection hrp' with e
        subst e
        cases hc : categoryOfString rc <;> simp [h0, h1, hc, hpri]

/-- C1: for every request whose description is a non-empty-after-trim
string, the classify operation succeeds with a category among
{billing, technical, account, general} and a priority among
{low, medium, high, critical}; no other success outcome exists. -/
theorem classify_total_in_range (llm : Option LLMOutcome) (s : String)
    (h : trimString s ≠ "") :
    ∃ c p, classifyHandler llm (JsValue.string s) = .ok c p ∧
      c ∈ [Category.billing, Category.technical, Category.account, Category.general] ∧
      p ∈ [Priority.low, Priority.medium, Priority.high, Priority.critical] := by
  match llm with
  | none =>
    exact ⟨fallbackCategory s, fallbackPriority s, by simp [classifyHandler, h],
      category_mem_univ _, priority_mem_univ _⟩
  | some o =>
    match hA : adapterParse o with
    | none =>
      exact ⟨fallbackCategory s, fallbackPriority s, by simp [classifyHandler, h, hA],
        category_mem_univ _, priority_mem_univ _⟩
    | some (c, p) =>
      exact ⟨c, p, by simp [classifyHandler, h, hA], category_mem_univ _, priority_mem_univ _⟩

/-- Witness for C1 at a concrete input. -/
theorem classify_total_in_range_witness :
    trimString "hello" ≠ "" ∧
    ∃ c p, classifyHandler none (JsValue.string "hello") = .ok c p ∧
      c ∈ [Category.billing, Category.technical, Category.account, Category.general] ∧
      p ∈ [Priority.low, Priority.medium, Priority.high, Priority.critical] :=
  ⟨by decide, classify_total_in_range none "hello" (by decide)⟩

/-- C4: with no external capability configured, the classify operation
returns exactly the fallback engine's output on the description. -/
theorem classify_unconfigured_eq_fallback (s : String) (h : trimString s ≠ "") :
    classifyHandler none (JsValue.string s) =
      .ok (fallbackCategory s) (fallbackPriority s) := by
  simp [classifyHandler, h]

/-- Witness for C4 at a concrete input. -/
theorem classify_unconfigured_eq_fallback_witness :
    trimString "hello" ≠ "" ∧
    classifyHandler none (JsValue.string "hello") =
      .ok (fallbackCategory "hello") (fallbackPriority "hello") :=
  ⟨by decide, classify_unconfigured_eq_fallback "hello" (by decide)⟩

/-- C8: the fallback engine is a pure deterministic function of the text:
two evaluations on equal texts give equal (category, priority) pairs. -/
theorem fallback_deterministic (s t : String) (h : s = t) :
    fallbackClassify s = fallbackClassify t :=
  congrArg fallbackClassify h

/-- Witness for C8 at a concrete input. -/
theorem fallback_deterministic_witness :
    "urgent billing issue" = "urgent billing issue" ∧
    fallbackClassify "urgent billing issue" = fallbackClassify "urgent billing issue" :=
  ⟨rfl, fallback_deterministic "urgent billing issue" "urgent billing issue" rfl⟩

/-- C5 counterexample: the text "bill login error" matches both the account
pattern ("login") and the technical pattern ("error"), yet the fallback
category is billing, not account — the billing pattern is tested first. -/
theorem fallback_both_account_technical_not_account :
    matchesAny (lowerString "bill login error") accountKeywords = true ∧
    matchesAny (lowerString "bill login error") technicalKeywords = true ∧
    fallbackCategory "bill login error" ≠ Category.account := by
  refine ⟨by decide, by decide, by decide⟩

/-- C5 (amended): the fallback category tests the billing, account and
technical patterns in that order on the lower-cased text, first match wins,
general when none match; in particular a text matching both the account and
the technical pattern, but not the billing pattern, yields account. -/
theorem fallback_category_first_match (s : String) :
    (matchesAny (lowerString s) billingKeywords = true →
      fallbackCategory s = Category.billing) ∧
    (matchesAny (lowerString s) billingKeywords = false →
      matchesAny (lowerString s) accountKeywords = true →
      fallbackCategory s = Category.account) ∧
    (matchesAny (lowerString s) billingKeywords = false →
      matchesAny (lowerString s) accountKeywords = false →
      matchesAny (lowerString s) technicalKeywords = true →
      fallbackCategory s = Category.technical) ∧
    (matchesAny (lowerString s) billingKeywords = false →
      matchesAny (lowerString s) accountKeywords = false →
      matchesAny (lowerString s) technicalKeywords = false →
      fallbackCategory s = Category.general) ∧
    (matchesAny (lowerString s) accountKeywords = true →
      matchesAny (lowerString s) technicalKeywords = true →
      matchesAny (lowerString s) billingKeywords = false →
      fallbackCategory s = Category.account) := by
  refine ⟨?_, ?_, ?_, ?_, ?_⟩
  · intro h1
    simp [fallbackCategory, h1]
  · intro h1 h2
    simp [fallbackCategory, h1, h2]
  · intro h1 h2 h3
    simp [fallbackCategory, h1, h2, h3]
  · intro h1 h2 h3
    simp [fallbackCategory, h1, h2, h3]
  · intro h1 h2 h3
    simp [fallbackCategory, h1, h3]

/-- Witness for C5 (amended) at a concrete input: "login error" matches the
account and technical patterns but not billing, and classifies as account. -/
theorem fallback_category_first_match_witness :
    matchesAny (lowerString "login error") accountKeywords = true ∧
    matchesAny (lowerString "login error") technicalKeywords = true ∧
    matchesAny (lowerString "login error") billingKeywords = false ∧
    fallbackCategory "login error" = Category.account :=
  ⟨by decide, by decide, by decide,
    (fallback_category_first_match "login error").2.2.2.2 (by decide) (by decide) (by decide)⟩

/-- C6: the fallback priority tests the critical, high and low patterns in
that order on the lower-cased text, first match wins, medium when none
match; in particular a text matching both the critical and the high pattern
yields critical. -/
theorem fallback_priority_first_match (s : String) :
    (matchesAny (lowerString s) criticalKeywords = true →
      fallbackPriority s = Priority.critical) ∧
    (matchesAny (lowerString s) criticalKeywords = false →
      matchesAny (lowerString s) highKeywords = true →
      fallbackPriority s = Priority.high) ∧
    (matchesAny (lowerString s) criticalKeywords = false →
      matchesAny (lowerString s) highKeywords = false →
      matchesAny (lowerString s) lowKeywords = true →
      fallbackPriority s = Priority.low) ∧
    (matchesAny (lowerString s) criticalKeywords = false →
      matchesAny (lowerString s) highKeywords = false →
      matchesAny (lowerString s) lowKeywords = false →
      fallbackPriority s = Priority.medium) ∧
    (matchesAny (lowerString s) criticalKeywords = true →
      matchesAny (lowerString s) highKeywords = true →
      fallbackPriority s = Priority.critical) := by
  refine ⟨?_, ?_, ?_, ?_, ?_⟩
  · intro h1
    simp [fallbackPriority, h1]
  · intro h1 h2
    simp [fallbackPriority, h1, h2]
  · intro h1 h2 h3
    simp [fallbackPriority, h1, h2, h3]
  · intro h1 h2 h3
    simp [fallbackPriority, h1, h2, h3]
  · intro h1 h2
    simp [fallbackPriority, h1]

/-- Witness for C6 at a concrete input: "outage but important" contains a
critical keyword ("outage") and a high keyword ("important") and gets
priority critical. -/
theorem fallback_priority_first_match_witness :
    matchesAny (lowerString "outage but important") criticalKeywords = true ∧
    matchesAny (lowerString "outage but important") highKeywords = true ∧
    fallbackPriority "outage but important" = Priority.critical :=
  ⟨by decide, by decide,
    (fallback_priority_first_match "outage but important").2.2.2.2 (by decide) (by decide)⟩

/-- C7 counterexample: on "The app crashes on login, please fix urgently"
with no external capability, the handler does not return
(account, critical) — "urgently" is not a whole-word match of the critical
keyword "urgent". -/
theorem classify_crash_login_not_critical :
    classifyHandler none
        (JsValue.string "The app crashes on login, please fix urgently") ≠
      ClassifyResponse.ok Category.account Priority.critical := by
  decide

/-- C7 (amended): on "The app crashes on login, please fix urgently" with no
external capability, the handler returns category account ("login" matches
the account pattern, tested before technical) and priority medium (no
priority keyword matches as a whole word: "urgently" is not "urgent"). -/
theorem classify_crash_login_scenario :
    classifyHandler none
        (JsValue.string "The app crashes on login, please fix urgently") =
      ClassifyResponse.ok Category.account Priority.medium := by
  decide

/-- C2: whenever the external call throws, or its reply has no token, one
token, or a token outside the enums, the handler returns exactly the
fallback engine's output on the description; no error is exposed. -/
theorem classify_garbage_falls_back (s : String) (h : trimString s ≠ "")
    (o : LLMOutcome)
    (hbad : o = .throws ∨ ∃ content, o = .returns content ∧
      (tokenize (llmText content) = [] ∨
        (tokenize (llmText content)).length = 1 ∨
        (∃ rc, (tokenize (llmText content))[0]? = some rc ∧ categoryOfString rc = none) ∨
        (∃ rp, (tokenize (llmText content))[1]? = some rp ∧ priorityOfString rp = none))) :
    classifyHandler (some o) (JsValue.string s) =
      .ok (fallbackCategory s) (fallbackPriority s) := by
  have hA : adapterParse o = none := by
    rcases hbad with rfl | ⟨content, rfl, hbad⟩
    · rfl
    · exact parseLLMResponse_eq_none_of_garbage content hbad
  simp [classifyHandler, h, hA]

/-- Witness for C2 at a concrete input: a single-token reply "technical"
falls back on "payment failed". -/
theorem classify_garbage_falls_back_witness :
    trimString "payment failed" ≠ "" ∧
    classifyHandler (some (.returns (some "technical"))) (JsValue.string "payment failed") =
      .ok (fallbackCategory "payment failed") (fallbackPriority "payment failed") :=
  ⟨by decide,
    classify_garbage_falls_back "payment failed" (by decide)
      (.returns (some "technical"))
      (Or.inr ⟨some "technical", rfl, Or.inr (Or.inl (by decide))⟩)⟩

/-- C3: when the capability is configured and the reply's first two
whitespace-separated tokens, after lowercasing, decode to a category and a
priority, the handler returns exactly that pair. -/
theorem classify_valid_llm_verbatim (s : String) (h : trimString s ≠ "")
    (content : Option String) (rc rp : String) (c : Category) (p : Priority)
    (h0 : (tokenize (llmText content))[0]? = some rc)
    (h1 : (tokenize (llmText content))[1]? = some rp)
    (hc : categoryOfString rc = some c)
    (hp : priorityOfString rp = some p) :
    classifyHandler (some (.returns content)) (JsValue.string s) =
      ClassifyResponse.ok c p := by
  have hA : adapterParse (.returns content) = some (c, p) := by
    simp [adapterParse, parseLLMResponse, h0, h1, hc, hp]
  simp [classifyHandler, h, hA]

/-- Witness for C3 at a concrete input: reply "Technical HIGH" on "hello"
yields (technical, high) verbatim. -/
theorem classify_valid_llm_verbatim_witness :
    trimString "hello" ≠ "" ∧
    classifyHandler (some (.returns (some "Technical HIGH"))) (JsValue.string "hello") =
      ClassifyResponse.ok Category.technical Priority.high :=
  ⟨by decide,
    classify_valid_llm_verbatim "hello" (by decide) (some "Technical HIGH")
      "technical" "high" Category.technical Priority.high
      (by decide) (by decide) (by decide) (by decide)⟩

/-- On a string description with non-empty trim, the handler always
answers with a success response. -/
lemma classify_string_ok (llm : Option LLMOutcome) (s : String)
    (h : trimString s ≠ "") :
    ∃ c p, classifyHandler llm (JsValue.string s) = ClassifyResponse.ok c p := by
  match llm with
  | none =>
    exact ⟨fallbackCategory s, fallbackPriority s, by simp [classifyHandler, h]⟩
  | some o =>
    match hA : adapterParse o with
    | none =>
      exact ⟨fallbackCategory s, fallbackPriority s, by simp [classifyHandler, h, hA]⟩
    | some (c, p) => exact ⟨c, p, by simp [classifyHandler, h, hA]⟩

/-- C9: the endpoint returns 400 "description is required" exactly when the
description field is not a string or is all-whitespace; on every other
string description it proceeds to a classification success (never 400). -/
theorem classify_input_validation (llm : Option LLMOutcome) (d : JsValue) :
    (classifyHandler llm d = .badRequest "description is required" ↔
      ((∀ s, d ≠ JsValue.string s) ∨
        ∃ s, d = JsValue.string s ∧ s.data.all isWsChar = true)) ∧
    (∀ s, d = JsValue.string s → s.data.all isWsChar = false →
      ∃ c p, classifyHandler llm d = ClassifyResponse.ok c p) := by
  cases d with
  | string s =>
    by_cases hws : s.data.all isWsChar = true
    · have htrim : trimString s = "" := (trimString_eq_empty_iff s).mpr hws
      refine ⟨⟨fun _ => Or.inr ⟨s, rfl, hws⟩, fun _ => by simp [classifyHandler, htrim]⟩, ?_⟩
      intro s' heq hws'
      injection heq with e
      subst e
      rw [hws] at hws'
      cases hws'
    · have hws' : s.data.all isWsChar = false := by simpa using hws
      have htrim : trimString s ≠ "" := by
        intro hcontra
        rw [(trimString_eq_empty_iff s).mp hcontra] at hws'
        cases hws'
      obtain ⟨c, p, hok⟩ := classify_string_ok llm s htrim
      refine ⟨⟨?_, ?_⟩, ?_⟩
      · intro hbr
        rw [hok] at hbr
        cases hbr
      · rintro (hne | ⟨s', heq, hall⟩)
        · exact absurd rfl (hne s)
        · injection heq with e
          subst e
          rw [hall] at hws'
          cases hws'
      · intro s' heq _
        injection heq with e
        subst e
        exact ⟨c, p, hok⟩
  | undefined =>
    refine ⟨⟨fun _ => Or.inl fun s => by simp, fun _ => rfl⟩, ?_⟩
    intro s heq
    simp at heq
  | null =>
    refine ⟨⟨fun _ => Or.inl fun s => by simp, fun _ => rfl⟩, ?_⟩
    intro s heq
    simp at heq
  | boolean b =>
    refine ⟨⟨fun _ => Or.inl fun s => by simp, fun _ => rfl⟩, ?_⟩
    intro s heq
    simp at heq
  | number n =>
    refine ⟨⟨fun _ => Or.inl fun s => by simp, fun _ => rfl⟩, ?_⟩
    intro s heq
    simp at heq

/-- Witness for C9 at a concrete input: a whitespace-only description is
rejected with the exact 400 message. -/
theorem classify_input_validation_witness :
    classifyHandler none (JsValue.string "   ") =
      .badRequest "description is required" :=
  (classify_input_validation none (JsValue.string "   ")).1.mpr
    (Or.inr ⟨"   ", rfl, by decide⟩)

/-- C10: a PATCH body with title and description absent and all three enum
fields failing `parseOptionalEnum` performs no update: the table is
unchanged, the stored ticket is echoed when it exists, and 404 is returned
exactly when it does not. -/
theorem patch_empty_update_frame (store : List Ticket) (id : String)
    (body : PatchBody)
    (ht : body.title = JsValue.undefined)
    (hd : body.description = JsValue.undefined)
    (hc : parseOptionalEnum body.category CATEGORIES = none)
    (hp : parseOptionalEnum body.priority PRIORITIES = none)
    (hs : parseOptionalEnum body.status STATUSES = none)
    (hid : id ≠ "") :
    (patchHandler store id body).2 = store ∧
    ((∃ t, findTicket store id = some t ∧
        (patchHandler store id body).1 = PatchResponse.ok t) ∨
      (findTicket store id = none ∧
        (patchHandler store id body).1 = PatchResponse.notFound)) := by
  have hbuild : buildUpdateData body = .ok ⟨none, none, none, none, none⟩ := by
    simp [buildUpdateData, checkTitleField, checkDescriptionField, ht, hd, hc, hp, hs]
  have hempty : UpdateData.isEmpty ⟨none, none, none, none, none⟩ = true := by decide
  unfold patchHandler
  rw [if_neg hid, hbuild]
  cases hf : findTicket store id with
  | none =>
    simp [hempty, hf]
  | some t =>
    simp [hempty, hf]

/-- Witness for C10 at a concrete input: an all-invalid body against a
one-row table leaves the table unchanged and echoes the row. -/
theorem patch_empty_update_frame_witness :
    parseOptionalEnum (JsValue.string "nonsense") CATEGORIES = none ∧
    parseOptionalEnum JsValue.null PRIORITIES = none ∧
    parseOptionalEnum (JsValue.string "") STATUSES = none ∧
    (patchHandler
        [⟨"t1", "Login broken", "cannot sign in", Category.account,
          Priority.high, Status.open⟩]
        "t1"
        ⟨JsValue.undefined, JsValue.undefined, JsValue.string "nonsense",
          JsValue.null, JsValue.string ""⟩).2 =
      [⟨"t1", "Login broken", "cannot sign in", Category.account,
        Priority.high, Status.open⟩] ∧
    ((∃ t, findTicket
          [⟨"t1", "Login broken", "cannot sign in", Category.account,
            Priority.high, Status.open⟩] "t1" = some t ∧
        (patchHandler
            [⟨"t1", "Login broken", "cannot sign in", Category.account,
              Priority.high, Status.open⟩]
            "t1"
            ⟨JsValue.undefined, JsValue.undefined, JsValue.string "nonsense",
              JsValue.null, JsValue.string ""⟩).1 = PatchResponse.ok t) ∨
      (findTicket
          [⟨"t1", "Login broken", "cannot sign in", Category.account,
            Priority.high, Status.open⟩] "t1" = none ∧
        (patchHandler
            [⟨"t1", "Login broken", "cannot sign in", Category.account,
              Priority.high, Status.open⟩]
            "t1"
            ⟨JsValue.undefined, JsValue.undefined, JsValue.string "nonsense",
              JsValue.null, JsValue.string ""⟩).1 = PatchResponse.notFound)) :=
  ⟨by decide, by decide, by decide,
    patch_empty_update_frame
      [⟨"t1", "Login broken", "cannot sign in", Category.account,
        Priority.high, Status.open⟩]
      "t1"
      ⟨JsValue.undefined, JsValue.undefined, JsValue.string "nonsense",
        JsValue.null, JsValue.string ""⟩
      rfl rfl (by decide) (by decide) (by decide) (by decide)⟩

end ClooTrack
